import Mathlib

/-!
Shallow embedding of `plugin.py` from the idagui repository: an ImGui
widget hosted inside a Qt/IDA environment.  Effectful calls into the
external libraries (imgui, OpenGL, Qt) are modelled as an `Act` trace;
information flowing back from the environment on a tick (surface exposed,
makeCurrent result, which calls raise) is an explicit environment record.
Machine floats in the source (wheel delta, pixel ratio, positions) are
modelled as exact rationals.
-/

/-- Exception classes relevant to the control flow of `render`:
`imgui.new_frame()` is guarded by `except RuntimeError`, while the content
hook is guarded by `except (RuntimeError, Exception)` which catches every
ordinary exception. -/
inductive ExcKind where
  | runtimeError
  | otherException
deriving DecidableEq

/-- `EventType` enum of plugin.py (lines 52-60). -/
inductive EventType where
  | MOUSE_PRESS
  | MOUSE_RELEASE
  | MOUSE_MOVE
  | WHEEL
  | KEY_PRESS
  | KEY_RELEASE
  | FOCUS_IN
  | FOCUS_OUT
deriving DecidableEq

/-- `imgui.MouseButton_` members used by the source. -/
inductive MouseButton where
  | left
  | right
  | middle
deriving DecidableEq

/-- `.value` of the `imgui.MouseButton_` enum members. -/
def MouseButton.value : MouseButton → Nat
  | .left => 0
  | .right => 1
  | .middle => 2

/-- `imgui.Key` members used by the source's key map. -/
inductive ImGuiKey where
  | tab
  | left_arrow
  | right_arrow
  | up_arrow
  | down_arrow
  | page_up
  | page_down
  | home
  | «end»
  | insert
  | delete
  | backspace
  | space
  | enter
  | escape
  | a
  | c
  | v
  | x
  | y
  | z
  | left_ctrl
  | left_shift
  | left_alt
  | left_super
  | right_super
  | menu
  | f1
  | f2
  | f3
  | f4
  | f5
  | f6
  | f7
  | f8
  | f9
  | f10
  | f11
  | f12
deriving DecidableEq, Fintype

/- Qt enum values (`QtCore.Qt.MouseButton` and `QtCore.Qt.Key` from
qnamespace.h), the numeric codes behind the symbolic names the source
uses. -/

def LeftButton : Nat := 0x01
def RightButton : Nat := 0x02
def MiddleButton : Nat := 0x04

def Key_Space : Nat := 0x20
def Key_A : Nat := 0x41
def Key_C : Nat := 0x43
def Key_V : Nat := 0x56
def Key_X : Nat := 0x58
def Key_Y : Nat := 0x59
def Key_Z : Nat := 0x5a
def Key_Escape : Nat := 0x01000000
def Key_Tab : Nat := 0x01000001
def Key_Backspace : Nat := 0x01000003
def Key_Return : Nat := 0x01000004
def Key_Enter : Nat := 0x01000005
def Key_Insert : Nat := 0x01000006
def Key_Delete : Nat := 0x01000007
def Key_Home : Nat := 0x01000010
def Key_End : Nat := 0x01000011
def Key_Left : Nat := 0x01000012
def Key_Up : Nat := 0x01000013
def Key_Right : Nat := 0x01000014
def Key_Down : Nat := 0x01000015
def Key_PageUp : Nat := 0x01000016
def Key_PageDown : Nat := 0x01000017
def Key_Shift : Nat := 0x01000020
def Key_Control : Nat := 0x01000021
def Key_Alt : Nat := 0x01000023
def Key_F1 : Nat := 0x01000030
def Key_F2 : Nat := 0x01000031
def Key_F3 : Nat := 0x01000032
def Key_F4 : Nat := 0x01000033
def Key_F5 : Nat := 0x01000034
def Key_F6 : Nat := 0x01000035
def Key_F7 : Nat := 0x01000036
def Key_F8 : Nat := 0x01000037
def Key_F9 : Nat := 0x01000038
def Key_F10 : Nat := 0x01000039
def Key_F11 : Nat := 0x0100003a
def Key_F12 : Nat := 0x0100003b
def Key_Super_L : Nat := 0x01000053
def Key_Super_R : Nat := 0x01000054
def Key_Menu : Nat := 0x01000055

/-- `qt_mouse_button_to_imgui` (plugin.py lines 63-75).  Left, right and
middle map to the fixed ImGui codes; any other code prints a warning to
stderr inside the function and yields `None`. -/
def qt_mouse_button_to_imgui (button : Nat) : Option MouseButton :=
  if button = LeftButton then some MouseButton.left
  else if button = RightButton then some MouseButton.right
  else if button = MiddleButton then some MouseButton.middle
  else none

/-- The `key_map` dictionary of `qt_key_to_imgui` (plugin.py lines 80-121),
in source order.  All Qt keys in it are distinct, so dict lookup agrees
with first-match association-list lookup. -/
def key_map : List (Nat × ImGuiKey) :=
  [(Key_Tab, ImGuiKey.tab),
   (Key_Left, ImGuiKey.left_arrow),
   (Key_Right, ImGuiKey.right_arrow),
   (Key_Up, ImGuiKey.up_arrow),
   (Key_Down, ImGuiKey.down_arrow),
   (Key_PageUp, ImGuiKey.page_up),
   (Key_PageDown, ImGuiKey.page_down),
   (Key_Home, ImGuiKey.home),
   (Key_End, ImGuiKey.«end»),
   (Key_Insert, ImGuiKey.insert),
   (Key_Delete, ImGuiKey.delete),
   (Key_Backspace, ImGuiKey.backspace),
   (Key_Space, ImGuiKey.space),
   (Key_Return, ImGuiKey.enter),
   (Key_Enter, ImGuiKey.enter),
   (Key_Escape, ImGuiKey.escape),
   (Key_A, ImGuiKey.a),
   (Key_C, ImGuiKey.c),
   (Key_V, ImGuiKey.v),
   (Key_X, ImGuiKey.x),
   (Key_Y, ImGuiKey.y),
   (Key_Z, ImGuiKey.z),
   (Key_Control, ImGuiKey.left_ctrl),
   (Key_Shift, ImGuiKey.left_shift),
   (Key_Alt, ImGuiKey.left_alt),
   (Key_Super_L, ImGuiKey.left_super),
   (Key_Super_R, ImGuiKey.right_super),
   (Key_Menu, ImGuiKey.menu),
   (Key_F1, ImGuiKey.f1),
   (Key_F2, ImGuiKey.f2),
   (Key_F3, ImGuiKey.f3),
   (Key_F4, ImGuiKey.f4),
   (Key_F5, ImGuiKey.f5),
   (Key_F6, ImGuiKey.f6),
   (Key_F7, ImGuiKey.f7),
   (Key_F8, ImGuiKey.f8),
   (Key_F9, ImGuiKey.f9),
   (Key_F10, ImGuiKey.f10),
   (Key_F11, ImGuiKey.f11),
   (Key_F12, ImGuiKey.f12)]

/-- `qt_key_to_imgui` (plugin.py lines 78-126): `key_map[key]` when
`key in key_map`, else `None`.  Note the `else` branch returns `None`
silently, with no logging. -/
def qt_key_to_imgui (key : Nat) : Option ImGuiKey :=
  key_map.lookup key

/-- One entry of the effect trace: a call into the imgui library, the GL
API, the renderer object, the Qt drawing context, or a diagnostic print.
Numeric payloads identify which context/renderer object a call targets. -/
inductive Act where
  | makeCurrentAttempt (ok : Bool)
  | createContext (ctx : Nat)
  | setCurrentContext (ctx : Nat)
  | get_io
  | setIniFilename (file : String)
  | setFramebufferScale (ratio : ℚ)
  | rendererCreate (id : Nat)
  | glViewport (w h : Int)
  | glClearColor
  | glClear
  | setDisplaySize (w h : Int)
  | newFrame
  | renderContent
  | logException
  | imguiRender
  | rendererRender (id : Nat)
  | swapBuffers
  | rendererShutdown (id : Nat)
  | destroyContext (ctx : Nat)
  | addMouseButtonEvent (button : Nat) (down : Bool)
  | addMousePosEvent (px py : ℚ)
  | addMouseWheelEvent (dx dy : ℚ)
  | addKeyEvent (key : ImGuiKey) (down : Bool)
  | addInputCharacter (code : Nat)
  | addFocusEvent (focused : Bool)
  | logWarning
deriving DecidableEq

/-- Calls that execute inside the GUI (imgui) library against the active
GuiContext, as opposed to Qt surface binding, raw GL calls, renderer
object calls and stderr prints. -/
def Act.isGuiCall : Act → Bool
  | .createContext _ => true
  | .setCurrentContext _ => true
  | .get_io => true
  | .setIniFilename _ => true
  | .setFramebufferScale _ => true
  | .setDisplaySize _ _ => true
  | .newFrame => true
  | .renderContent => true
  | .imguiRender => true
  | .destroyContext _ => true
  | .addMouseButtonEvent _ _ => true
  | .addMousePosEvent _ _ => true
  | .addMouseWheelEvent _ _ => true
  | .addKeyEvent _ _ => true
  | .addInputCharacter _ => true
  | .addFocusEvent _ => true
  | _ => false

/-- Discriminators used to count occurrences of one call in a trace. -/
def Act.isRendererCreate : Act → Bool
  | .rendererCreate _ => true
  | _ => false

def Act.isSetFramebufferScale : Act → Bool
  | .setFramebufferScale _ => true
  | _ => false

def Act.isSetCurrentContext : Act → Bool
  | .setCurrentContext _ => true
  | _ => false

def Act.isAddMouseWheelEvent : Act → Bool
  | .addMouseWheelEvent _ _ => true
  | _ => false

def Act.isAddKeyEvent : Act → Bool
  | .addKeyEvent _ _ => true
  | _ => false

def Act.isDestroyContext : Act → Bool
  | .destroyContext _ => true
  | _ => false

/-- The fields of a Qt input event that `handle_event` reads, depending on
the event type: `button()`, `position()`, `angleDelta().y()`, `key()`,
`text()` (as Unicode code points). -/
structure QEvent where
  button : Nat
  posX : ℚ
  posY : ℚ
  angleDeltaY : Int
  key : Nat
  text : List Nat
deriving DecidableEq

/-- `ImGuiOpenGLWidget.handle_event` (plugin.py lines 228-257) as the trace
of imgui calls it performs.  Its first imgui call is `imgui.get_io()`; it
never calls `imgui.set_current_context`.  The `logWarning` in the unmapped
mouse-button branches is the stderr print that executes inside
`qt_mouse_button_to_imgui` when it returns `None`. -/
def handle_event (event_type : EventType) (event : QEvent) : List Act :=
  Act.get_io ::
  match event_type with
  | .MOUSE_PRESS =>
    match qt_mouse_button_to_imgui event.button with
    | some b => [Act.addMouseButtonEvent b.value true]
    | none => [Act.logWarning]
  | .MOUSE_RELEASE =>
    match qt_mouse_button_to_imgui event.button with
    | some b => [Act.addMouseButtonEvent b.value false]
    | none => [Act.logWarning]
  | .MOUSE_MOVE => [Act.addMousePosEvent event.posX event.posY]
  | .WHEEL => [Act.addMouseWheelEvent 0 ((event.angleDeltaY : ℚ) / 120)]
  | .KEY_PRESS =>
    (match qt_key_to_imgui event.key with
     | some k => [Act.addKeyEvent k true]
     | none => []) ++
    event.text.map (fun code => Act.addInputCharacter code)
  | .KEY_RELEASE =>
    match qt_key_to_imgui event.key with
    | some k => [Act.addKeyEvent k false]
    | none => []
  | .FOCUS_IN => [Act.addFocusEvent true]
  | .FOCUS_OUT => [Act.addFocusEvent false]

/-- Widget fields relevant to the render/teardown protocol.
`imgui_context` is the numeric identity of the capsule stored in
`self.imgui_context` (`0` models a falsy value, so the `if
self.imgui_context:` guard in `__del__` is `imgui_context ≠ 0`; the field
is never reassigned after construction, in particular not cleared after
`destroy_context`).  `renderer` is `None` until lazily created;
`fresh_renderer_id` supplies the identity of the next renderer object. -/
structure WidgetState where
  imgui_context : Nat
  renderer : Option Nat
  fresh_renderer_id : Nat
deriving DecidableEq

/-- The imgui-relevant effects of `ImGuiOpenGLWidget.__init__`
(plugin.py lines 203-213): create the context, select it, get io, set the
ini file name from the prefix, set the framebuffer scale to the device
pixel ratio.  This is the only place the source writes
`io.display_framebuffer_scale`. -/
def initActions (ctx : Nat) (ini_name : String) (device_pixel_ratio : ℚ) : List Act :=
  [Act.createContext ctx,
   Act.setCurrentContext ctx,
   Act.get_io,
   Act.setIniFilename (ini_name ++ ".ini"),
   Act.setFramebufferScale device_pixel_ratio]

/-- Widget state as `__init__` leaves it: a live context, no renderer yet. -/
def initState (ctx : Nat) : WidgetState :=
  { imgui_context := ctx, renderer := none, fresh_renderer_id := 0 }

/-- Environment of one timer tick: what the surface, the drawing context
and the two faulting call sites do on this tick. -/
structure TickEnv where
  isExposed : Bool
  makeCurrentOk : Bool
  width : Int
  height : Int
  newFrameExc : Option ExcKind
  contentExc : Option ExcKind
deriving DecidableEq

/-- `ImGuiOpenGLWidget.render` (plugin.py lines 263-301) for one tick:
returns the effect trace, the post-state, and the exception escaping the
call (`none` = the call returns normally).

Control flow mirrored from the source: early return when the window is not
exposed; early return when `makeCurrent` fails; lazy renderer creation;
`set_current_context`; viewport/clear; `display_size` write; `new_frame`
guarded by `except RuntimeError` only; the content hook guarded by
`except (RuntimeError, Exception)` with a traceback print, with
`imgui.render()` in a `finally` block; then renderer submission and buffer
swap. -/
def render (e : TickEnv) (s : WidgetState) : List Act × WidgetState × Option ExcKind :=
  if e.isExposed = false then ([], s, none)
  else if e.makeCurrentOk = false then ([Act.makeCurrentAttempt false], s, none)
  else
    let createTrace : List Act :=
      if s.renderer = none then [Act.rendererCreate s.fresh_renderer_id] else []
    let s1 : WidgetState :=
      if s.renderer = none then
        { s with renderer := some s.fresh_renderer_id,
                 fresh_renderer_id := s.fresh_renderer_id + 1 }
      else s
    let preFrame :=
      [Act.setCurrentContext s1.imgui_context,
       Act.glViewport e.width e.height,
       Act.glClearColor,
       Act.glClear,
       Act.get_io,
       Act.setDisplaySize e.width e.height]
    match e.newFrameExc with
    | some ExcKind.runtimeError =>
      ([Act.makeCurrentAttempt true] ++ createTrace ++ preFrame ++ [Act.newFrame],
       s1, none)
    | some ExcKind.otherException =>
      ([Act.makeCurrentAttempt true] ++ createTrace ++ preFrame ++ [Act.newFrame],
       s1, some ExcKind.otherException)
    | none =>
      let contentTrace :=
        match e.contentExc with
        | none => [Act.renderContent]
        | some _ => [Act.renderContent, Act.logException]
      let submitTrace :=
        [Act.imguiRender] ++
        (match s1.renderer with
         | some r => [Act.rendererRender r]
         | none => []) ++
        [Act.swapBuffers]
      ([Act.makeCurrentAttempt true] ++ createTrace ++ preFrame ++ [Act.newFrame] ++
         contentTrace ++ submitTrace,
       s1, none)

/-- A sequence of timer ticks: `render` once per tick, threading the
widget state (the Qt timer keeps firing regardless of what the previous
tick did). -/
def runTicks (envs : List TickEnv) (s : WidgetState) : List Act × WidgetState :=
  match envs with
  | [] => ([], s)
  | e :: rest =>
    ((render e s).1 ++ (runTicks rest (render e s).2.1).1,
     (runTicks rest (render e s).2.1).2)

/-- `ImGuiOpenGLWidget.__del__` (plugin.py lines 220-226): when
`self.imgui_context` is truthy, select it, shut the renderer down if
present, destroy the context.  No field is reassigned, so the post-state
equals the pre-state. -/
def delWidget (s : WidgetState) : List Act × WidgetState :=
  if s.imgui_context ≠ 0 then
    ([Act.setCurrentContext s.imgui_context] ++
     (match s.renderer with
      | some r => [Act.rendererShutdown r]
      | none => []) ++
     [Act.destroyContext s.imgui_context],
     s)
  else ([], s)

/-! Helper lemmas about association-list lookup and the render cycle,
shared by the claim theorems below. -/

theorem lookup_mem_of_eq_some (l : List (Nat × ImGuiKey)) (k : Nat) (val : ImGuiKey)
    (h : l.lookup k = some val) : (k, val) ∈ l := by
  induction l with
  | nil => simp [List.lookup] at h
  | cons hd tl ih =>
    rw [List.lookup] at h
    by_cases hk : k = hd.1
    · subst hk
      simp at h
      subst h
      exact List.mem_cons_self _ _
    · have hbeq : (k == hd.1) = false := by
        simp [hk]
      rw [hbeq] at h
      exact List.mem_cons_of_mem _ (ih h)

theorem render_not_exposed (e : TickEnv) (s : WidgetState) (h : e.isExposed = false) :
    render e s = ([], s, none) := by
  simp [render, h]

theorem render_bind_fail (e : TickEnv) (s : WidgetState)
    (h1 : e.isExposed = true) (h2 : e.makeCurrentOk = false) :
    render e s = ([Act.makeCurrentAttempt false], s, none) := by
  simp [render, h1, h2]

/-- C7: `qt_mouse_button_to_imgui` and `qt_key_to_imgui` are pure total
functions over fixed finite tables: the three Qt buttons map to the fixed
ImGui button codes and every other button code maps to `none`; every Qt
key in `key_map` maps to its table entry and every key outside the table
maps to `none`.  Totality (never raising) is intrinsic: both are total
Lean functions on all of `Nat`. -/
theorem translators_fixed_finite_tables :
    qt_mouse_button_to_imgui LeftButton = some MouseButton.left ∧
    qt_mouse_button_to_imgui RightButton = some MouseButton.right ∧
    qt_mouse_button_to_imgui MiddleButton = some MouseButton.middle ∧
    (∀ b : Nat, b ≠ LeftButton → b ≠ RightButton → b ≠ MiddleButton →
      qt_mouse_button_to_imgui b = none) ∧
    (∀ k val, (k, val) ∈ key_map → qt_key_to_imgui k = some val) ∧
    (∀ k : Nat, (∀ val, (k, val) ∉ key_map) → qt_key_to_imgui k = none) := by
  refine ⟨by decide, by decide, by decide, ?_, ?_, ?_⟩
  · intro b h1 h2 h3
    simp [qt_mouse_button_to_imgui, h1, h2, h3]
  · intro k val h
    fin_cases h <;> decide
  · intro k hk
    cases h : key_map.lookup k with
    | none => exact h
    | some val => exact absurd (lookup_mem_of_eq_some _ _ _ h) (hk val)

/-- Witness for C7: the translators evaluated at concrete mapped and
unmapped codes through the theorem itself. -/
theorem translators_fixed_finite_tables_witness :
    qt_mouse_button_to_imgui 8 = none ∧
    qt_key_to_imgui Key_Tab = some ImGuiKey.tab ∧
    qt_key_to_imgui 305 = none :=
  ⟨translators_fixed_finite_tables.2.2.2.1 8 (by decide) (by decide) (by decide),
   translators_fixed_finite_tables.2.2.2.2.1 Key_Tab ImGuiKey.tab (by decide),
   translators_fixed_finite_tables.2.2.2.2.2 305 (by decide)⟩

/-- C8 counterexample: a key press carrying an unmapped key code (305 is
`Qt.Key_yen`, absent from `key_map`) and the text "a" produces exactly
`get_io` followed by the forwarded character: no warning (or any other)
log entry is emitted, refuting "the event is logged at warning level".
The `logWarning` print exists only in the mouse-button translator. -/
theorem unmapped_key_press_not_logged :
    handle_event EventType.KEY_PRESS ⟨0, 0, 0, 0, 305, [97]⟩ =
      [Act.get_io, Act.addInputCharacter 97] ∧
    Act.logWarning ∉ handle_event EventType.KEY_PRESS ⟨0, 0, 0, 0, 305, [97]⟩ := by
  decide

/-- C8 amended: when a key-press event arrives whose key code has no
mapping, the event is dropped silently (no log entry of any kind): no GUI
key event is queued, while any text-character input carried by the event
is still forwarded independently to the GUI input queue. -/
theorem unmapped_key_press_dropped_text_forwarded (ev : QEvent)
    (h : qt_key_to_imgui ev.key = none) :
    handle_event EventType.KEY_PRESS ev =
      Act.get_io :: ev.text.map (fun code => Act.addInputCharacter code) ∧
    (∀ k down, Act.addKeyEvent k down ∉ handle_event EventType.KEY_PRESS ev) ∧
    Act.logWarning ∉ handle_event EventType.KEY_PRESS ev ∧
    Act.logException ∉ handle_event EventType.KEY_PRESS ev := by
  refine ⟨by simp [handle_event, h], ?_, ?_, ?_⟩
  · intro k down
    simp [handle_event, h]
  · simp [handle_event, h]
  · simp [handle_event, h]

/-- Witness for C8's amended theorem at the unmapped key 305 with text
"a". -/
theorem unmapped_key_press_dropped_text_forwarded_witness :
    handle_event EventType.KEY_PRESS ⟨0, 0, 0, 0, 305, [97]⟩ =
      Act.get_io :: [Nat.succ 96].map (fun code => Act.addInputCharacter code) ∧
    (∀ k down, Act.addKeyEvent k down ∉ handle_event EventType.KEY_PRESS ⟨0, 0, 0, 0, 305, [97]⟩) ∧
    Act.logWarning ∉ handle_event EventType.KEY_PRESS ⟨0, 0, 0, 0, 305, [97]⟩ ∧
    Act.logException ∉ handle_event EventType.KEY_PRESS ⟨0, 0, 0, 0, 305, [97]⟩ :=
  unmapped_key_press_dropped_text_forwarded ⟨0, 0, 0, 0, 305, [97]⟩ (by decide)

/-- C10: a wheel event queues exactly one mouse-wheel event, horizontal
component 0, vertical component the event's vertical angle delta divided
by 120 (exact rational division, so fractional high-resolution deltas are
preserved); a standard 120-unit notch yields exactly 1. -/
theorem wheel_event_one_notch_ratio (ev : QEvent) :
    handle_event EventType.WHEEL ev =
      [Act.get_io, Act.addMouseWheelEvent 0 ((ev.angleDeltaY : ℚ) / 120)] ∧
    ((handle_event EventType.WHEEL ev).countP fun a => a.isAddMouseWheelEvent) = 1 ∧
    handle_event EventType.WHEEL ⟨0, 0, 0, 120, 0, []⟩ =
      [Act.get_io, Act.addMouseWheelEvent 0 1] := by
  refine ⟨by simp [handle_event], ?_, by simp [handle_event]⟩
  simp [handle_event, List.countP, List.countP.go, Act.isAddMouseWheelEvent]

/-- C4 failing input: `handle_event` is an entry point that touches GUI
state (it queues input into the io of whichever GuiContext is currently
active), yet its first GUI action is `imgui.get_io()` and it never calls
`imgui.set_current_context` — shown here on a focus-in event, and the
same head applies to every event type since `get_io` precedes the
dispatch.  With two coexisting widgets this routes input into the other
widget's context. -/
theorem handle_event_never_reselects_context :
    (handle_event EventType.FOCUS_IN ⟨0, 0, 0, 0, 0, []⟩).head? = some Act.get_io ∧
    ((handle_event EventType.FOCUS_IN ⟨0, 0, 0, 0, 0, []⟩).all
      fun a => !(a.isSetCurrentContext)) = true ∧
    ((handle_event EventType.FOCUS_IN ⟨0, 0, 0, 0, 0, []⟩).any
      fun a => a.isGuiCall) = true := by
  decide

/-- A successful tick with an existing renderer keeps the same renderer
object and performs no renderer construction. -/
theorem render_renderer_preserved (e : TickEnv) (s : WidgetState) (r : Nat)
    (hr : s.renderer = some r) :
    (render e s).2.1.renderer = some r ∧
    ((render e s).1.countP fun a => a.isRendererCreate) = 0 := by
  rcases hexp : e.isExposed <;> rcases hmc : e.makeCurrentOk <;>
    rcases hnf : e.newFrameExc with _ | (_ | _) <;>
    rcases hc : e.contentExc with _ | (_ | _) <;>
    simp [render, hexp, hmc, hnf, hc, hr, List.countP_cons, List.countP_append,
      Act.isRendererCreate]

/-- The first tick that binds with no renderer present constructs exactly
one renderer. -/
theorem render_creates_on_first_bind (e : TickEnv) (s : WidgetState)
    (hr : s.renderer = none) (hexp : e.isExposed = true) (hmc : e.makeCurrentOk = true) :
    Act.rendererCreate s.fresh_renderer_id ∈ (render e s).1 ∧
    (render e s).2.1.renderer = some s.fresh_renderer_id ∧
    ((render e s).1.countP fun a => a.isRendererCreate) = 1 := by
  rcases hnf : e.newFrameExc with _ | (_ | _) <;>
    rcases hc : e.contentExc with _ | (_ | _) <;>
    simp [render, hexp, hmc, hnf, hc, hr, List.countP_cons, List.countP_append,
      Act.isRendererCreate]

/-- A skipped tick leaves the widget state untouched and constructs no
renderer. -/
theorem render_skip_preserves (e : TickEnv) (s : WidgetState)
    (h : ¬(e.isExposed = true ∧ e.makeCurrentOk = true)) :
    (render e s).2.1 = s ∧
    ((render e s).1.countP fun a => a.isRendererCreate) = 0 := by
  rcases hexp : e.isExposed <;> rcases hmc : e.makeCurrentOk <;>
    simp_all [render, List.countP_cons, Act.isRendererCreate]

/-- Once a renderer exists, no run of ticks ever constructs another one,
and the renderer identity is stable across the whole run. -/
theorem runTicks_countCreate_of_some (envs : List TickEnv) (s : WidgetState) (r : Nat)
    (hr : s.renderer = some r) :
    ((runTicks envs s).1.countP fun a => a.isRendererCreate) = 0 ∧
    (runTicks envs s).2.renderer = some r := by
  induction envs generalizing s with
  | nil => simp [runTicks, hr]
  | cons e rest ih =>
    have h1 := render_renderer_preserved e s r hr
    have h2 := ih (render e s).2.1 h1.1
    simp [runTicks, List.countP_append, h1.2, h2.1, h2.2]

/-- Across any run of ticks started without a renderer, the renderer is
constructed exactly once when some tick binds successfully, and never
otherwise. -/
theorem runTicks_lazy_create (envs : List TickEnv) (s : WidgetState)
    (hr : s.renderer = none) :
    ((runTicks envs s).1.countP fun a => a.isRendererCreate) =
      (if envs.any (fun e => e.isExposed && e.makeCurrentOk) then 1 else 0) := by
  induction envs generalizing s with
  | nil => simp [runTicks]
  | cons e rest ih =>
    by_cases hb : e.isExposed = true ∧ e.makeCurrentOk = true
    · have hcr := render_creates_on_first_bind e s hr hb.1 hb.2
      have hrest := runTicks_countCreate_of_some rest (render e s).2.1 s.fresh_renderer_id hcr.2.1
      simp [runTicks, List.countP_append, hcr.2.2, hrest.1, hb.1, hb.2]
    · have hb' : (e.isExposed && e.makeCurrentOk) = false := by
        cases hexp : e.isExposed <;> cases hmc : e.makeCurrentOk <;> simp_all
      have hskip := render_skip_preserves e s hb
      rw [runTicks, List.countP_append, hskip.2]
      rw [hskip.1]
      simp [ih s hr, List.any_cons, hb']

/-- C1: every render cycle that reaches FRAME_OPEN (surface exposed,
makeCurrent succeeded, new-frame did not raise) reaches SUBMITTED: the
frame-completion call `imgui.render()` is in the trace, the render call
returns normally (no exception escapes), and a raising content hook is
caught and logged. -/
theorem frame_open_always_submitted (e : TickEnv) (s : WidgetState)
    (hexp : e.isExposed = true) (hmc : e.makeCurrentOk = true)
    (hnf : e.newFrameExc = none) :
    Act.imguiRender ∈ (render e s).1 ∧
    (render e s).2.2 = none ∧
    (∀ k, e.contentExc = some k → Act.logException ∈ (render e s).1) := by
  rcases hc : e.contentExc with _ | (_ | _) <;> rcases hr : s.renderer with _ | r <;>
    simp [render, hexp, hmc, hnf, hc, hr]

/-- Witness for C1: a concrete frame whose content hook raises a
RuntimeError still executes `imgui.render()`, logs the failure, and the
render call returns normally. -/
theorem frame_open_always_submitted_witness :
    Act.imguiRender ∈
      (render ⟨true, true, 640, 480, none, some ExcKind.runtimeError⟩ (initState 1)).1 ∧
    (render ⟨true, true, 640, 480, none, some ExcKind.runtimeError⟩ (initState 1)).2.2 = none ∧
    Act.logException ∈
      (render ⟨true, true, 640, 480, none, some ExcKind.runtimeError⟩ (initState 1)).1 :=
  ⟨(frame_open_always_submitted _ _ rfl rfl rfl).1,
   (frame_open_always_submitted _ _ rfl rfl rfl).2.1,
   (frame_open_always_submitted _ _ rfl rfl rfl).2.2 ExcKind.runtimeError rfl⟩

/-- C2: when the surface is not exposed or makeCurrent fails, the tick is
skipped: the trace contains no GUI-context call at all (in particular no
new-frame and no display-size write), the widget state is unchanged, and
the call returns normally. -/
theorem skipped_tick_no_gui_calls (e : TickEnv) (s : WidgetState)
    (h : e.isExposed = false ∨ e.makeCurrentOk = false) :
    ((render e s).1.all fun a => !(a.isGuiCall)) = true ∧
    (render e s).2.1 = s ∧
    (render e s).2.2 = none ∧
    Act.newFrame ∉ (render e s).1 ∧
    (∀ w ht, Act.setDisplaySize w ht ∉ (render e s).1) := by
  rcases h with h | h
  · simp [render_not_exposed e s h]
  · cases hexp : e.isExposed
    · simp [render_not_exposed e s hexp]
    · simp [render_bind_fail e s hexp h, Act.isGuiCall]

/-- Witness for C2: a tick on an unexposed surface touches nothing. -/
theorem skipped_tick_no_gui_calls_witness :
    ((render ⟨false, true, 640, 480, none, none⟩ (initState 1)).1.all
      fun a => !(a.isGuiCall)) = true ∧
    (render ⟨false, true, 640, 480, none, none⟩ (initState 1)).2.1 = initState 1 ∧
    (render ⟨false, true, 640, 480, none, none⟩ (initState 1)).2.2 = none ∧
    Act.newFrame ∉ (render ⟨false, true, 640, 480, none, none⟩ (initState 1)).1 ∧
    (∀ w ht, Act.setDisplaySize w ht ∉
      (render ⟨false, true, 640, 480, none, none⟩ (initState 1)).1) :=
  skipped_tick_no_gui_calls _ _ (Or.inl rfl)

/-- C3 counterexample: the claim says the abort of a failing new-frame
holds "for any exception raised by frame-begin" and that "the render call
returns normally", but the source guards `imgui.new_frame()` with
`except RuntimeError` only: a non-RuntimeError exception from new-frame
escapes the render call instead of returning normally. -/
theorem new_frame_non_runtime_error_escapes :
    (render ⟨true, true, 640, 480, some ExcKind.otherException, none⟩ (initState 1)).2.2 =
      some ExcKind.otherException ∧
    Act.renderContent ∉
      (render ⟨true, true, 640, 480, some ExcKind.otherException, none⟩ (initState 1)).1 := by
  decide

/-- C3 amended: if beginning a new frame raises, the cycle aborts
immediately without calling the content hook, without end-frame and
without a buffer swap; when the exception is a RuntimeError the abort is
a transient skip (the render call returns normally), while any other
exception propagates out of the render call. -/
theorem new_frame_failure_aborts_before_hook (e : TickEnv) (s : WidgetState)
    (hexp : e.isExposed = true) (hmc : e.makeCurrentOk = true)
    (k : ExcKind) (hnf : e.newFrameExc = some k) :
    Act.renderContent ∉ (render e s).1 ∧
    Act.imguiRender ∉ (render e s).1 ∧
    Act.swapBuffers ∉ (render e s).1 ∧
    (k = ExcKind.runtimeError → (render e s).2.2 = none) ∧
    (k = ExcKind.otherException → (render e s).2.2 = some ExcKind.otherException) := by
  cases k <;> rcases hr : s.renderer with _ | r <;> simp [render, hexp, hmc, hnf, hr]

/-- Witness for C3's amended theorem: a RuntimeError from new-frame skips
the hook and end-frame and returns normally. -/
theorem new_frame_failure_aborts_before_hook_witness :
    Act.renderContent ∉
      (render ⟨true, true, 640, 480, some ExcKind.runtimeError, none⟩ (initState 1)).1 ∧
    Act.imguiRender ∉
      (render ⟨true, true, 640, 480, some ExcKind.runtimeError, none⟩ (initState 1)).1 ∧
    (render ⟨true, true, 640, 480, some ExcKind.runtimeError, none⟩ (initState 1)).2.2 = none :=
  ⟨(new_frame_failure_aborts_before_hook _ _ rfl rfl ExcKind.runtimeError rfl).1,
   (new_frame_failure_aborts_before_hook _ _ rfl rfl ExcKind.runtimeError rfl).2.1,
   (new_frame_failure_aborts_before_hook _ _ rfl rfl ExcKind.runtimeError rfl).2.2.2.1 rfl⟩

/-- C5 counterexample: on a tick that binds successfully, the current
surface size is written to `io.display_size`, but no
`io.display_framebuffer_scale` write occurs anywhere in the tick's trace:
the device pixel scale is written only in `__init__` (see `initActions`),
refuting "both ... are pushed ... on every tick". -/
theorem scale_not_pushed_on_tick :
    Act.setDisplaySize 640 480 ∈
      (render ⟨true, true, 640, 480, none, none⟩ (initState 1)).1 ∧
    ((render ⟨true, true, 640, 480, none, none⟩ (initState 1)).1.all
      fun a => !(a.isSetFramebufferScale)) = true := by
  decide

/-- C5 amended: on every tick that successfully binds the context, the
current surface size is pushed into the GUI context's display-size field
with no caching across ticks; the device pixel scale is pushed into the
framebuffer-scale field once, at construction, not every tick. -/
theorem display_size_per_tick_scale_at_init (e : TickEnv) (s : WidgetState)
    (hexp : e.isExposed = true) (hmc : e.makeCurrentOk = true) :
    Act.setDisplaySize e.width e.height ∈ (render e s).1 ∧
    ((render e s).1.all fun a => !(a.isSetFramebufferScale)) = true ∧
    (∀ ctx ini dpr, Act.setFramebufferScale dpr ∈ initActions ctx ini dpr) := by
  refine ⟨?_, ?_, fun ctx ini dpr => by simp [initActions]⟩ <;>
    rcases hnf : e.newFrameExc with _ | (_ | _) <;>
    rcases hc : e.contentExc with _ | (_ | _) <;>
    rcases hr : s.renderer with _ | r <;>
    simp [render, hexp, hmc, hnf, hc, hr, Act.isSetFramebufferScale]

/-- Witness for C5's amended theorem on a concrete 640x480 tick. -/
theorem display_size_per_tick_scale_at_init_witness :
    Act.setDisplaySize 640 480 ∈
      (render ⟨true, true, 640, 480, none, none⟩ (initState 1)).1 ∧
    ((render ⟨true, true, 640, 480, none, none⟩ (initState 1)).1.all
      fun a => !(a.isSetFramebufferScale)) = true ∧
    Act.setFramebufferScale 2 ∈ initActions 1 "imgui_plugin" 2 :=
  ⟨(display_size_per_tick_scale_at_init _ _ rfl rfl).1,
   (display_size_per_tick_scale_at_init _ _ rfl rfl).2.1,
   (display_size_per_tick_scale_at_init (⟨true, true, 640, 480, none, none⟩ : TickEnv)
     (initState 1) rfl rfl).2.2 1 "imgui_plugin" 2⟩

/-- C9: the renderer resource is created lazily exactly once, on the
first tick whose makeCurrent succeeds, and reused thereafter: (1) a tick
starting with a renderer keeps that same renderer and constructs none;
(2) the first successful bind constructs exactly one renderer; (3) over
any run of ticks from a fresh widget, the total number of renderer
constructions is one when some tick binds successfully and zero
otherwise. -/
theorem renderer_created_once_reused :
    (∀ e s r, s.renderer = some r →
      (render e s).2.1.renderer = some r ∧
      ((render e s).1.countP fun a => a.isRendererCreate) = 0) ∧
    (∀ e s, s.renderer = none → e.isExposed = true → e.makeCurrentOk = true →
      Act.rendererCreate s.fresh_renderer_id ∈ (render e s).1 ∧
      (render e s).2.1.renderer = some s.fresh_renderer_id ∧
      ((render e s).1.countP fun a => a.isRendererCreate) = 1) ∧
    (∀ envs s, s.renderer = none →
      ((runTicks envs s).1.countP fun a => a.isRendererCreate) =
        (if envs.any (fun e => e.isExposed && e.makeCurrentOk) then 1 else 0)) :=
  ⟨fun e s r hr => render_renderer_preserved e s r hr,
   fun e s hr hexp hmc => render_creates_on_first_bind e s hr hexp hmc,
   fun envs s hr => runTicks_lazy_create envs s hr⟩

/-- Witness for C9: a widget holding renderer 5 keeps it across a tick
with no construction; a fresh widget constructs renderer 0 on the first
bind; a three-tick run (skip, bind, bind) constructs exactly one
renderer. -/
theorem renderer_created_once_reused_witness :
    ((render ⟨true, true, 640, 480, none, none⟩
        (⟨1, some 5, 6⟩ : WidgetState)).2.1.renderer = some 5 ∧
      (((render ⟨true, true, 640, 480, none, none⟩
        (⟨1, some 5, 6⟩ : WidgetState)).1.countP fun a => a.isRendererCreate) = 0)) ∧
    Act.rendererCreate 0 ∈ (render ⟨true, true, 640, 480, none, none⟩ (initState 1)).1 ∧
    ((runTicks [⟨false, true, 640, 480, none, none⟩, ⟨true, true, 640, 480, none, none⟩,
        ⟨true, true, 320, 240, none, none⟩] (initState 1)).1.countP
      fun a => a.isRendererCreate) = 1 := by
  refine ⟨renderer_created_once_reused.1 _ _ 5 rfl,
    (renderer_created_once_reused.2.1 _ _ rfl rfl rfl).1, ?_⟩
  have h := renderer_created_once_reused.2.2
    [⟨false, true, 640, 480, none, none⟩, ⟨true, true, 640, 480, none, none⟩,
     ⟨true, true, 320, 240, none, none⟩] (initState 1) rfl
  simpa using h

/-- C6 counterexample: `__del__` never clears `self.imgui_context`, so the
teardown sequence does not "execute exactly once ... under repeated
invocation": invoking it twice on a live widget destroys the GuiContext
twice. -/
theorem del_twice_destroys_twice :
    (((delWidget (initState 1)).1 ++ (delWidget (delWidget (initState 1)).2).1).countP
      fun a => a.isDestroyContext) = 2 := by
  decide

/-- C6 amended: on any single invocation of teardown with a live context,
the sequence is select this widget's GuiContext, shut the renderer down if
present, destroy the GuiContext — in that order, so the context is never
destroyed without first being made active, and is destroyed exactly once
per invocation; but the context field is left unchanged, so nothing in
the code guards a repeated invocation against a second destruction. -/
theorem del_teardown_ordered (s : WidgetState) (h : s.imgui_context ≠ 0) :
    (delWidget s).1.head? = some (Act.setCurrentContext s.imgui_context) ∧
    (delWidget s).1.getLast? = some (Act.destroyContext s.imgui_context) ∧
    ((delWidget s).1.countP fun a => a.isDestroyContext) = 1 ∧
    (∀ r, s.renderer = some r → Act.rendererShutdown r ∈ (delWidget s).1) ∧
    (s.renderer = none → ∀ r, Act.rendererShutdown r ∉ (delWidget s).1) ∧
    (delWidget s).2 = s := by
  rcases hr : s.renderer with _ | r <;>
    simp [delWidget, h, hr, List.countP_cons, Act.isDestroyContext]

/-- Witness for C6's amended theorem on a freshly constructed widget. -/
theorem del_teardown_ordered_witness :
    (delWidget (initState 1)).1.head? = some (Act.setCurrentContext 1) ∧
    (delWidget (initState 1)).1.getLast? = some (Act.destroyContext 1) ∧
    ((delWidget (initState 1)).1.countP fun a => a.isDestroyContext) = 1 ∧
    (delWidget (initState 1)).2 = initState 1 :=
  ⟨(del_teardown_ordered (initState 1) (by decide)).1,
   (del_teardown_ordered (initState 1) (by decide)).2.1,
   (del_teardown_ordered (initState 1) (by decide)).2.2.1,
   (del_teardown_ordered (initState 1) (by decide)).2.2.2.2.2⟩
